import Mathlib

/-!
Verification development for the Web Synthesizer repository.

The audio engine lives in `src/components/Synthesizer.tsx`; rational numbers
stand in for the JS doubles wherever the quantities are exact breakpoint
arithmetic, and real numbers are used for the two curve generators that
involve pi and real powers.  Web Audio gain automation is modelled as an
explicit event timeline evaluated by `gainAt`, following the Web Audio
semantics of setValueAtTime / linearRampToValueAtTime /
cancelScheduledValues (an event's time for a linear ramp is its end time,
and cancelling removes every event whose time is at or after the cancel
time).
-/

/-- Oscillator waveform, the closed set offered by the UI select. -/
inductive Waveform
  | sine
  | square
  | sawtooth
  | triangle
deriving DecidableEq, Repr

/-- Biquad filter type, the closed set offered by the UI select. -/
inductive FilterKind
  | lowpass
  | highpass
  | bandpass
deriving DecidableEq, Repr

/-- `params.oscillator` of `SynthParams` in Synthesizer.tsx. -/
structure OscillatorParams where
  waveform : Waveform
  frequency : ℚ
  detune : ℚ
deriving DecidableEq, Repr

/-- `params.filter` of `SynthParams` in Synthesizer.tsx. -/
structure FilterParams where
  kind : FilterKind
  frequency : ℚ
  Q : ℚ
deriving DecidableEq, Repr

/-- `params.envelope` of `SynthParams` in Synthesizer.tsx. -/
structure EnvelopeParams where
  attack : ℚ
  decay : ℚ
  sustain : ℚ
  release : ℚ
deriving DecidableEq, Repr

/-- `params.effects` of `SynthParams` in Synthesizer.tsx. -/
structure EffectsParams where
  reverb : ℚ
  delay : ℚ
  distortion : ℚ
deriving DecidableEq, Repr

/-- The `SynthParams` record of Synthesizer.tsx. -/
structure SynthParams where
  oscillator : OscillatorParams
  filter : FilterParams
  envelope : EnvelopeParams
  effects : EffectsParams
  volume : ℚ
deriving DecidableEq, Repr

/-- `defaultParams` of Synthesizer.tsx. -/
def defaultParams : SynthParams :=
  { oscillator := { waveform := Waveform.sawtooth, frequency := 440, detune := 0 }
    filter := { kind := FilterKind.lowpass, frequency := 2000, Q := 1 }
    envelope := { attack := 1/10, decay := 3/10, sustain := 7/10, release := 1/2 }
    effects := { reverb := 1/5, delay := 1/10, distortion := 0 }
    volume := 1/2 }

/-- One scheduled change of an AudioParam: `setValue v time` is
`setValueAtTime(v, time)`, `linearRamp v time` is
`linearRampToValueAtTime(v, time)` (`time` is the ramp's end time). -/
inductive AutoEvent
  | setValue (v : ℚ) (time : ℚ)
  | linearRamp (v : ℚ) (time : ℚ)
deriving DecidableEq, Repr

/-- The event's scheduled time (end time for a ramp). -/
def AutoEvent.time : AutoEvent → ℚ
  | .setValue _ t => t
  | .linearRamp _ t => t

/-- Evaluate a sorted automation timeline at time `t`, starting from value
`v0` established at time `tPrev` (Web Audio computedValue semantics: a set
value holds until the next event; a linear ramp interpolates from the
previous event's value and time to its own target and end time). -/
def evalAuto (v0 : ℚ) (tPrev : ℚ) : List AutoEvent → ℚ → ℚ
  | [], _ => v0
  | AutoEvent.setValue v te :: rest, t =>
      if t < te then v0 else evalAuto v te rest t
  | AutoEvent.linearRamp v te :: rest, t =>
      if t < te then v0 + (v - v0) * (t - tPrev) / (te - tPrev)
      else evalAuto v te rest t

/-- The computed gain value of a GainNode at time `t` under the given
timeline; a fresh GainNode's gain is 1 until the first event. -/
def gainAt (events : List AutoEvent) (t : ℚ) : ℚ :=
  evalAuto 1 0 events t

/-- `cancelScheduledValues(t)`: removes every event whose time is `≥ t`. -/
def cancelScheduledValues (t : ℚ) (events : List AutoEvent) : List AutoEvent :=
  events.filter (fun e => e.time < t)

/-- The gain timeline that `playNote` schedules at note-on time `t0`
(Synthesizer.tsx lines 145-150): pin to 0 at `t0`, linear ramp to `volume`
at `t0+attack`, linear ramp to `volume*sustain` at `t0+attack+decay`. -/
def noteOnEvents (p : SynthParams) (t0 : ℚ) : List AutoEvent :=
  [ AutoEvent.setValue 0 t0,
    AutoEvent.linearRamp p.volume (t0 + p.envelope.attack),
    AutoEvent.linearRamp (p.volume * p.envelope.sustain)
      (t0 + p.envelope.attack + p.envelope.decay) ]

/-- The gain timeline after `stopNote` runs at time `t1` with release time
`rel` (Synthesizer.tsx lines 215-217): `cancelScheduledValues(t1)`, then
`setValueAtTime(gain.value, t1)` — the value is read AFTER the
cancellation, so it is the value the already-cancelled timeline computes at
`t1` — then `linearRampToValueAtTime(0, t1+rel)`. -/
def stopNoteEvents (events : List AutoEvent) (t1 rel : ℚ) : List AutoEvent :=
  let cancelled := cancelScheduledValues t1 events
  let captured := gainAt cancelled t1
  cancelled ++ [AutoEvent.setValue captured t1, AutoEvent.linearRamp 0 (t1 + rel)]

-- Sanity examples for the evaluator on the spec's worked envelope
-- (attack 0.1, decay 0.3, sustain 0.7, volume 0.5, note-on at 0).
example : gainAt (noteOnEvents defaultParams 0) 0 = 0 := by
  norm_num [gainAt, evalAuto, noteOnEvents, defaultParams]
example : gainAt (noteOnEvents defaultParams 0) (1/10) = 1/2 := by
  norm_num [gainAt, evalAuto, noteOnEvents, defaultParams]
example : gainAt (noteOnEvents defaultParams 0) (4/10) = 7/20 := by
  norm_num [gainAt, evalAuto, noteOnEvents, defaultParams]
example : gainAt (noteOnEvents defaultParams 0) 5 = 7/20 := by
  norm_num [gainAt, evalAuto, noteOnEvents, defaultParams]
example : gainAt (noteOnEvents defaultParams 0) (1/20) = 1/4 := by
  norm_num [gainAt, evalAuto, noteOnEvents, defaultParams]

/-- The audio nodes one `playNote` call creates (Synthesizer.tsx lines
125-132), plus `destination`, the master output of the audio context. -/
inductive Node
  | oscillator
  | filterNode
  | distortionNode
  | gainNode
  | reverbNode
  | delayNode
  | delayGain
  | masterGain
  | destination
deriving DecidableEq, Repr

/-- The connect calls `playNote` issues (Synthesizer.tsx lines 171-198),
as the list of directed edges of the voice graph.  The distortion stage is
inserted in the filter-to-gain path only when `distortion > 0`; the reverb
send edges exist only when `reverb > 0`; the delay send edges (including
the feedback edge delayGain-to-delayNode) exist only when `delay > 0`. -/
def voiceEdges (p : SynthParams) : List (Node × Node) :=
  [(Node.oscillator, Node.filterNode)]
    ++ (if p.effects.distortion > 0 then
          [(Node.filterNode, Node.distortionNode), (Node.distortionNode, Node.gainNode)]
        else
          [(Node.filterNode, Node.gainNode)])
    ++ [(Node.gainNode, Node.masterGain)]
    ++ (if p.effects.reverb > 0 then
          [(Node.gainNode, Node.reverbNode), (Node.reverbNode, Node.masterGain)]
        else [])
    ++ (if p.effects.delay > 0 then
          [(Node.gainNode, Node.delayNode), (Node.delayNode, Node.delayGain),
           (Node.delayGain, Node.delayNode), (Node.delayGain, Node.masterGain)]
        else [])
    ++ [(Node.masterGain, Node.destination)]

/-- One voice graph as `playNote` builds it: the per-note node settings are
baked in at construction from the `SynthParams` in effect at note-on (the
`snapshot`), the oscillator frequency comes from the note-on argument,
`gainEvents` is the voice gain node's automation timeline, and `stopTime`
is the time passed to `oscillator.stop` (none until a stop is scheduled). -/
structure Voice where
  startTime : ℚ
  frequency : ℚ
  snapshot : SynthParams
  gainEvents : List AutoEvent
  stopTime : Option ℚ
  edges : List (Node × Node)
deriving DecidableEq, Repr

/-- The voice `playNote` builds at time `t` for note frequency `freq` under
parameters `p` (Synthesizer.tsx lines 122-207). -/
def buildVoice (p : SynthParams) (freq t : ℚ) : Voice :=
  { startTime := t
    frequency := freq
    snapshot := p
    gainEvents := noteOnEvents p t
    stopTime := none
    edges := voiceEdges p }

/-- The state of the Synthesizer component: the stored parameter set, every
voice graph created so far (newest first; the Web Audio graph is never
disconnected, so old voices persist), and whether the oscillator/gain refs
currently point at the newest voice (`stopNote` nulls them; `playNote` sets
them). -/
structure SynthState where
  params : SynthParams
  voices : List Voice
  refsHeld : Bool
deriving DecidableEq, Repr

/-- The component state right after mount: default parameters, no voice. -/
def initialState : SynthState :=
  { params := defaultParams, voices := [], refsHeld := false }

/-- `stopNote` at time `t` (Synthesizer.tsx lines 210-225): if the refs are
non-null, cancel the current voice's pending gain ramps, re-pin the gain at
the post-cancellation value, ramp it to 0 over `params.envelope.release`
(the release stored in the CURRENT parameter set, not the voice snapshot),
schedule `oscillator.stop(t + release)`, and null the refs.  Otherwise a
no-op.  No node is ever disconnected. -/
def stopNote (t : ℚ) (s : SynthState) : SynthState :=
  if s.refsHeld then
    match s.voices with
    | [] => s
    | v :: rest =>
        let rel := s.params.envelope.release
        { s with
            voices := { v with
                          gainEvents := stopNoteEvents v.gainEvents t rel,
                          stopTime := some (t + rel) } :: rest
            refsHeld := false }
  else s

/-- `playNote freq` at time `t` (Synthesizer.tsx lines 116-208): first runs
`stopNote()` on the previous note, then builds and wires a fresh voice from
the current parameters and points the refs at it. -/
def playNote (freq t : ℚ) (s : SynthState) : SynthState :=
  let s1 := stopNote t s
  { s1 with
      voices := buildVoice s1.params freq t :: s1.voices
      refsHeld := true }

/-- One leaf-field update request, covering every `updateParam` call site
in the Synthesizer UI plus the volume knob's direct `setParams`. -/
inductive ParamField
  | oscWaveform (w : Waveform)
  | oscFrequency (v : ℚ)
  | oscDetune (v : ℚ)
  | filterKind (k : FilterKind)
  | filterFrequency (v : ℚ)
  | filterQ (v : ℚ)
  | envAttack (v : ℚ)
  | envDecay (v : ℚ)
  | envSustain (v : ℚ)
  | envRelease (v : ℚ)
  | fxReverb (v : ℚ)
  | fxDelay (v : ℚ)
  | fxDistortion (v : ℚ)
  | volume (v : ℚ)
deriving DecidableEq, Repr

/-- `updateParam(category, param, value)` (Synthesizer.tsx lines 227-235):
a plain spread update of the stored parameter record.  The function is
total — it performs no range check of any kind and never fails. -/
def updateParam (p : SynthParams) : ParamField → SynthParams
  | .oscWaveform w => { p with oscillator := { p.oscillator with waveform := w } }
  | .oscFrequency v => { p with oscillator := { p.oscillator with frequency := v } }
  | .oscDetune v => { p with oscillator := { p.oscillator with detune := v } }
  | .filterKind k => { p with filter := { p.filter with kind := k } }
  | .filterFrequency v => { p with filter := { p.filter with frequency := v } }
  | .filterQ v => { p with filter := { p.filter with Q := v } }
  | .envAttack v => { p with envelope := { p.envelope with attack := v } }
  | .envDecay v => { p with envelope := { p.envelope with decay := v } }
  | .envSustain v => { p with envelope := { p.envelope with sustain := v } }
  | .envRelease v => { p with envelope := { p.envelope with release := v } }
  | .fxReverb v => { p with effects := { p.effects with reverb := v } }
  | .fxDelay v => { p with effects := { p.effects with delay := v } }
  | .fxDistortion v => { p with effects := { p.effects with distortion := v } }
  | .volume v => { p with volume := v }

/-- A parameter update as seen by the whole component: `setParams` replaces
only the `params` state; it touches no audio node and no voice. -/
def updateParamState (s : SynthState) (f : ParamField) : SynthState :=
  { s with params := updateParam s.params f }

/-- The address of one leaf field of a `SynthParams` record — one per
`(category, param)` pair `updateParam` can touch. -/
inductive Leaf
  | oscWaveform
  | oscFrequency
  | oscDetune
  | filterKind
  | filterFrequency
  | filterQ
  | envAttack
  | envDecay
  | envSustain
  | envRelease
  | fxReverb
  | fxDelay
  | fxDistortion
  | volume
deriving DecidableEq, Repr

/-- The value stored at one leaf field: a waveform, a filter kind, or a
number, depending on the leaf. -/
inductive LeafVal
  | wf (w : Waveform)
  | fk (k : FilterKind)
  | num (q : ℚ)
deriving DecidableEq, Repr

/-- The leaf an update request addresses. -/
def ParamField.leaf : ParamField → Leaf
  | .oscWaveform _ => Leaf.oscWaveform
  | .oscFrequency _ => Leaf.oscFrequency
  | .oscDetune _ => Leaf.oscDetune
  | .filterKind _ => Leaf.filterKind
  | .filterFrequency _ => Leaf.filterFrequency
  | .filterQ _ => Leaf.filterQ
  | .envAttack _ => Leaf.envAttack
  | .envDecay _ => Leaf.envDecay
  | .envSustain _ => Leaf.envSustain
  | .envRelease _ => Leaf.envRelease
  | .fxReverb _ => Leaf.fxReverb
  | .fxDelay _ => Leaf.fxDelay
  | .fxDistortion _ => Leaf.fxDistortion
  | .volume _ => Leaf.volume

/-- The value an update request carries. -/
def ParamField.val : ParamField → LeafVal
  | .oscWaveform w => LeafVal.wf w
  | .oscFrequency v => LeafVal.num v
  | .oscDetune v => LeafVal.num v
  | .filterKind k => LeafVal.fk k
  | .filterFrequency v => LeafVal.num v
  | .filterQ v => LeafVal.num v
  | .envAttack v => LeafVal.num v
  | .envDecay v => LeafVal.num v
  | .envSustain v => LeafVal.num v
  | .envRelease v => LeafVal.num v
  | .fxReverb v => LeafVal.num v
  | .fxDelay v => LeafVal.num v
  | .fxDistortion v => LeafVal.num v
  | .volume v => LeafVal.num v

/-- Read one leaf field of a `SynthParams` record. -/
def readLeaf (p : SynthParams) : Leaf → LeafVal
  | Leaf.oscWaveform => LeafVal.wf p.oscillator.waveform
  | Leaf.oscFrequency => LeafVal.num p.oscillator.frequency
  | Leaf.oscDetune => LeafVal.num p.oscillator.detune
  | Leaf.filterKind => LeafVal.fk p.filter.kind
  | Leaf.filterFrequency => LeafVal.num p.filter.frequency
  | Leaf.filterQ => LeafVal.num p.filter.Q
  | Leaf.envAttack => LeafVal.num p.envelope.attack
  | Leaf.envDecay => LeafVal.num p.envelope.decay
  | Leaf.envSustain => LeafVal.num p.envelope.sustain
  | Leaf.envRelease => LeafVal.num p.envelope.release
  | Leaf.fxReverb => LeafVal.num p.effects.reverb
  | Leaf.fxDelay => LeafVal.num p.effects.delay
  | Leaf.fxDistortion => LeafVal.num p.effects.distortion
  | Leaf.volume => LeafVal.num p.volume

/-- A `synthPresets` row (convex/schema.ts): record id, owning user id
(identities modelled as naturals), name, and the stored parameter fields. -/
structure Preset where
  id : ℕ
  userId : ℕ
  name : String
  params : SynthParams
deriving DecidableEq, Repr

/-- The two failure kinds the preset mutations throw: "Must be logged in"
and "Preset not found or unauthorized". -/
inductive PresetError
  | authRequired
  | notFoundOrUnauthorized
deriving DecidableEq, Repr

/-- `ctx.db.get(presetId)`: look a record up by id. -/
def dbGet (db : List Preset) (pid : ℕ) : Option Preset :=
  db.find? (fun p => p.id = pid)

/-- The `deletePreset` mutation (convex/synth.ts): resolve the caller's
identity (none means unauthenticated, throwing "Must be logged in"); fetch
the record; if it is absent or its `userId` differs from the caller, throw
"Preset not found or unauthorized"; only then delete the record.  A thrown
error aborts the mutation, so on `.error` the table is untouched; on `.ok`
the returned table is the new contents. -/
def deletePreset (auth : Option ℕ) (pid : ℕ) (db : List Preset) :
    Except PresetError (List Preset) :=
  match auth with
  | none => Except.error PresetError.authRequired
  | some userId =>
      match dbGet db pid with
      | none => Except.error PresetError.notFoundOrUnauthorized
      | some preset =>
          if preset.userId = userId then
            Except.ok (db.filter (fun p => p.id ≠ pid))
          else
            Except.error PresetError.notFoundOrUnauthorized

/-- JavaScript `Math.round`: round half toward positive infinity. -/
def jsRound (x : ℚ) : ℤ :=
  ⌊x + 1/2⌋

/-- The value a Knob delivers to `onChange` for one mouse-drag step
(Knob.tsx `handleMouseMove`): the drag-derived value
`startValue + deltaY * (max - min) / 200` clamped into `[min, max]`, then
`Math.round(newValue / step) * step`. -/
def knobDragValue (minv maxv stepv startValue deltaY : ℚ) : ℚ :=
  let sensitivity := (maxv - minv) / 200
  let newValue := max minv (min maxv (startValue + deltaY * sensitivity))
  (jsRound (newValue / stepv) : ℚ) * stepv

/-- The `(min, max, step)` triple of every `Knob` the Synthesizer component
instantiates (Synthesizer.tsx lines 282-398); none passes `step`, so all
use the default 0.01. -/
def synthKnobs : List (ℚ × ℚ × ℚ) :=
  [ (20, 2000, 1/100),      -- oscillator frequency
    (-100, 100, 1/100),     -- oscillator detune
    (20, 20000, 1/100),     -- filter cutoff
    (1/10, 30, 1/100),      -- filter resonance Q
    (1/100, 2, 1/100),      -- envelope attack
    (1/100, 2, 1/100),      -- envelope decay
    (0, 1, 1/100),          -- envelope sustain
    (1/100, 3, 1/100),      -- envelope release
    (0, 1, 1/100),          -- effects reverb
    (0, 1, 1/100),          -- effects delay
    (0, 1, 1/100),          -- effects distortion
    (0, 1, 1/100) ]         -- master volume

/-- `createDistortionCurve(amount)` (Synthesizer.tsx lines 103-114), sample
`i` of the 44100-sample waveshaper transfer curve:
`x = (i*2)/44100 - 1` and
`curve[i] = ((3 + amount) * x * 20 * (pi/180)) / (pi + amount * |x|)`. -/
noncomputable def createDistortionCurve (amount : ℝ) (i : ℕ) : ℝ :=
  let deg := Real.pi / 180
  let x := ((i : ℝ) * 2) / 44100 - 1
  ((3 + amount) * x * 20 * deg) / (Real.pi + amount * |x|)

/-- Modelled from the spec: the distortion transfer formula as the spec
states it for claim C7 — `amountScaled = distortionAmount * 100`,
`x = 2i/44100 - 1`,
`curve[i] = (3+amountScaled)·x·20·(pi/180) / (pi + amountScaled·|x|)` —
to be compared with `createDistortionCurve` translated from the source. -/
noncomputable def specDistortionCurve (distortionAmount : ℝ) (i : ℕ) : ℝ :=
  let amountScaled := distortionAmount * 100
  let x := 2 * (i : ℝ) / 44100 - 1
  ((3 + amountScaled) * x * 20 * (Real.pi / 180)) / (Real.pi + amountScaled * |x|)

/-- A stereo impulse-response buffer: channel count, frame length, sample
rate, and the sample data indexed by channel then frame. -/
structure ImpulseBuffer where
  numChannels : ℕ
  length : ℕ
  sampleRate : ℕ
  data : ℕ → ℕ → ℝ

/-- The decay envelope factor of impulse sample `i`:
`Math.pow(1 - i / length, decay)` (real power). -/
noncomputable def impulseEnvelope (length : ℕ) (decay : ℝ) (i : ℕ) : ℝ :=
  (1 - (i : ℝ) / (length : ℝ)) ^ decay

/-- `createImpulseResponse(duration, decay)` (Synthesizer.tsx lines
85-100): a 2-channel buffer of `length = sampleRate * duration` frames;
sample `i` of each channel is `(Math.random() * 2 - 1) * Math.pow(1 - i /
length, decay)`.  The `Math.random()` draws are modelled as an oracle
`rnd : channel → frame → ℝ` since the code uses true randomness. -/
noncomputable def createImpulseResponse (rnd : ℕ → ℕ → ℝ) (sampleRate : ℕ)
    (duration : ℕ) (decay : ℝ) : ImpulseBuffer :=
  { numChannels := 2
    length := sampleRate * duration
    sampleRate := sampleRate
    data := fun c i =>
      (rnd c i * 2 - 1) * impulseEnvelope (sampleRate * duration) decay i }

/-- Parameters of the spec's release-from-mid-attack scenario: the defaults
with attack set to 1.0 second. -/
def midAttackParams : SynthParams :=
  { defaultParams with envelope := { defaultParams.envelope with attack := 1 } }

/-- C3: on note-on at `t0` the scheduled gain envelope pins the gain to 0
at `t0`, ramps linearly to exactly `volume` at `t0+attack`, ramps linearly
to exactly `volume*sustain` at `t0+attack+decay`, and holds
`volume*sustain` for every later time until note-off. -/
theorem noteOn_envelope_shape (p : SynthParams) (t0 t : ℚ)
    (ha : 0 < p.envelope.attack) (hd : 0 < p.envelope.decay) :
    gainAt (noteOnEvents p t0) t0 = 0 ∧
    gainAt (noteOnEvents p t0) (t0 + p.envelope.attack) = p.volume ∧
    gainAt (noteOnEvents p t0) (t0 + p.envelope.attack + p.envelope.decay)
      = p.volume * p.envelope.sustain ∧
    (t0 ≤ t → t ≤ t0 + p.envelope.attack →
      gainAt (noteOnEvents p t0) t = p.volume * (t - t0) / p.envelope.attack) ∧
    (t0 + p.envelope.attack ≤ t → t ≤ t0 + p.envelope.attack + p.envelope.decay →
      gainAt (noteOnEvents p t0) t
        = p.volume + (p.volume * p.envelope.sustain - p.volume)
            * (t - (t0 + p.envelope.attack)) / p.envelope.decay) ∧
    (t0 + p.envelope.attack + p.envelope.decay ≤ t →
      gainAt (noteOnEvents p t0) t = p.volume * p.envelope.sustain) := by
  have ha' : p.envelope.attack ≠ 0 := ne_of_gt ha
  have hd' : p.envelope.decay ≠ 0 := ne_of_gt hd
  refine ⟨?_, ?_, ?_, ?_, ?_, ?_⟩
  · simp only [gainAt, noteOnEvents, evalAuto]
    split_ifs with h1 h2 <;> first | linarith | (field_simp)
  · simp only [gainAt, noteOnEvents, evalAuto]
    split_ifs with h1 h2 h3 <;> first | linarith | (field_simp)
  · simp only [gainAt, noteOnEvents, evalAuto]
    split_ifs with h1 h2 h3 <;> linarith
  · intro h1 h2
    simp only [gainAt, noteOnEvents, evalAuto]
    rw [if_neg (not_lt.mpr h1)]
    by_cases hg : t < t0 + p.envelope.attack
    · rw [if_pos hg]
      have e1 : t0 + p.envelope.attack - t0 = p.envelope.attack := by ring
      rw [e1]
      ring
    · have ht : t = t0 + p.envelope.attack := le_antisymm h2 (not_lt.mp hg)
      subst ht
      rw [if_neg hg, if_pos (by linarith)]
      field_simp
  · intro h1 h2
    simp only [gainAt, noteOnEvents, evalAuto]
    rw [if_neg (by push_neg; linarith : ¬ t < t0), if_neg (not_lt.mpr h1)]
    by_cases hg : t < t0 + p.envelope.attack + p.envelope.decay
    · rw [if_pos hg]
      have e1 : t0 + p.envelope.attack + p.envelope.decay - (t0 + p.envelope.attack)
          = p.envelope.decay := by ring
      rw [e1]
    · have ht : t = t0 + p.envelope.attack + p.envelope.decay :=
        le_antisymm h2 (not_lt.mp hg)
      subst ht
      rw [if_neg hg]
      field_simp
  · intro h1
    simp only [gainAt, noteOnEvents, evalAuto]
    rw [if_neg (by push_neg; linarith : ¬ t < t0),
        if_neg (by push_neg; linarith : ¬ t < t0 + p.envelope.attack),
        if_neg (not_lt.mpr h1)]

/-- C4 (code bug, evaluated at the failing input): with attack 1.0, volume
0.5, release 0.5, note-on at 0 and note-off at 0.2, the instantaneous gain
at note-off is 0.1; but `stopNote` calls `cancelScheduledValues` BEFORE
reading `gain.value`, and cancelling removes the in-flight attack ramp
(its event time 1.0 is ≥ 0.2), so the value read is the rolled-back 0 of
the `setValueAtTime(0, 0)` breakpoint.  The scheduled release therefore
ramps from 0, not from 0.1: the gain is discontinuous at the switch point,
contradicting the capture-current-value rule the spec states. -/
theorem stopNote_capture_after_cancel_bug :
    gainAt (noteOnEvents midAttackParams 0) (1/5) = 1/10 ∧
    stopNoteEvents (noteOnEvents midAttackParams 0) (1/5) (1/2)
      = [AutoEvent.setValue 0 0, AutoEvent.setValue 0 (1/5),
         AutoEvent.linearRamp 0 (1/5 + 1/2)] ∧
    gainAt (stopNoteEvents (noteOnEvents midAttackParams 0) (1/5) (1/2)) (1/5) = 0 := by
  refine ⟨?_, ?_, ?_⟩
  · norm_num [gainAt, evalAuto, noteOnEvents, midAttackParams, defaultParams]
  · norm_num [stopNoteEvents, cancelScheduledValues, gainAt, evalAuto, noteOnEvents,
      midAttackParams, defaultParams, AutoEvent.time, List.filter_cons, List.filter_nil]
  · norm_num [stopNoteEvents, cancelScheduledValues, gainAt, evalAuto, noteOnEvents,
      midAttackParams, defaultParams, AutoEvent.time, List.filter_cons, List.filter_nil]

/-- Counterexample to C1 as stated: after noteOn at time 0 and a second
noteOn at time 1 (while the first voice is sounding), the first voice is
NOT hard-stopped at time 1 — its oscillator stop is scheduled at
1 + release = 1.5, i.e. the release ramp is honored, and its stages are
never disconnected: both voice graphs still carry their full edge list,
including the masterGain-to-destination connection, so two voice graphs
are wired to the output during the release tail. -/
theorem noteOn_hard_stop_counterexample :
    ((playNote 330 1 (playNote 440 0 initialState)).voices.map Voice.stopTime)
      = [none, some (3/2)] ∧
    ((playNote 330 1 (playNote 440 0 initialState)).voices.map Voice.edges)
      = [voiceEdges defaultParams, voiceEdges defaultParams] ∧
    (Node.masterGain, Node.destination) ∈ voiceEdges defaultParams := by
  refine ⟨?_, ?_, ?_⟩
  · norm_num [playNote, stopNote, buildVoice, initialState, defaultParams]
  · norm_num [playNote, stopNote, buildVoice, initialState]
  · norm_num [voiceEdges, defaultParams]

/-- C1 (amended): a noteOn issued while a voice is active (refs held) does
not tear it down immediately — it cancels the previous voice's pending
gain ramps, ramps its gain to 0 over the CURRENT release time, and
schedules its oscillator stop at now + release; no stage of the previous
voice is disconnected (its edge list is unchanged), so its graph stays
wired to the master output during the release tail; the controller's refs
then point at exactly the one new voice. -/
theorem noteOn_preempts_with_release (s : SynthState) (freq t : ℚ) (v : Voice)
    (rest : List Voice) (hheld : s.refsHeld = true) (hv : s.voices = v :: rest) :
    (playNote freq t s).voices =
      buildVoice s.params freq t
        :: { v with
               gainEvents := stopNoteEvents v.gainEvents t s.params.envelope.release,
               stopTime := some (t + s.params.envelope.release) }
        :: rest ∧
    (playNote freq t s).refsHeld = true ∧
    ({ v with
         gainEvents := stopNoteEvents v.gainEvents t s.params.envelope.release,
         stopTime := some (t + s.params.envelope.release) } : Voice).edges = v.edges := by
  refine ⟨?_, ?_, rfl⟩
  · simp [playNote, stopNote, hheld, hv]
  · simp [playNote]

/-- Witness for C1 (amended) on the concrete two-noteOn trace of the
counterexample. -/
theorem noteOn_preempts_with_release_witness :
    (playNote 330 1 (playNote 440 0 initialState)).voices =
      buildVoice (playNote 440 0 initialState).params 330 1
        :: { buildVoice defaultParams 440 0 with
               gainEvents := stopNoteEvents (buildVoice defaultParams 440 0).gainEvents 1
                 (playNote 440 0 initialState).params.envelope.release,
               stopTime := some (1 + (playNote 440 0 initialState).params.envelope.release) }
        :: [] ∧
    (playNote 330 1 (playNote 440 0 initialState)).refsHeld = true ∧
    ({ buildVoice defaultParams 440 0 with
         gainEvents := stopNoteEvents (buildVoice defaultParams 440 0).gainEvents 1
           (playNote 440 0 initialState).params.envelope.release,
         stopTime := some (1 + (playNote 440 0 initialState).params.envelope.release) }
       : Voice).edges = (buildVoice defaultParams 440 0).edges :=
  noteOn_preempts_with_release (playNote 440 0 initialState) 330 1
    (buildVoice defaultParams 440 0) [] (by rfl) (by rfl)

/-- Witness for C3 at the spec's worked example: attack 0.1, decay 0.3,
sustain 0.7, volume 0.5 (the defaults), note-on at 0 — the gain is 0.5 at
0.1, 0.35 at 0.4, and still 0.35 at time 2. -/
theorem noteOn_envelope_shape_witness :
    gainAt (noteOnEvents defaultParams 0) 0 = 0 ∧
    gainAt (noteOnEvents defaultParams 0) (1/10) = 1/2 ∧
    gainAt (noteOnEvents defaultParams 0) (4/10) = 7/20 ∧
    gainAt (noteOnEvents defaultParams 0) 2 = 7/20 := by
  have h := noteOn_envelope_shape defaultParams 0 2
    (by norm_num [defaultParams]) (by norm_num [defaultParams])
  obtain ⟨h0, h1, h2, -, -, h3⟩ := h
  have h3' := h3 (by norm_num [defaultParams])
  norm_num [defaultParams] at h0 h1 h2 h3' ⊢
  exact ⟨h0, h1, h2, h3'⟩

/-- Counterexample to C2 as stated: `updateParam` with the out-of-range
resonance value Q = 35 (the declared range is [0.1, 30]) does not fail and
does not leave the stored parameter set unchanged — the value 35 is stored
verbatim. -/
theorem updateParam_no_validation_counterexample :
    (30:ℚ) < 35 ∧
    updateParam defaultParams (ParamField.filterQ 35) ≠ defaultParams ∧
    (updateParam defaultParams (ParamField.filterQ 35)).filter.Q = 35 := by
  refine ⟨by norm_num, ?_, rfl⟩
  intro h
  have h2 := congrArg (fun q => q.filter.Q) h
  norm_num [updateParam, defaultParams] at h2

/-- C2 (amended): `updateParam` performs no range validation at all — for
EVERY addressed field and EVERY value, in range or not, the update
succeeds, stores the value verbatim in the addressed leaf, and leaves
every other leaf field untouched; range limits are imposed only upstream
by the Knob UI clamping. -/
theorem updateParam_always_stores (p : SynthParams) (f : ParamField) (l : Leaf)
    (hl : l ≠ f.leaf) :
    readLeaf (updateParam p f) f.leaf = f.val ∧
    readLeaf (updateParam p f) l = readLeaf p l := by
  cases f <;> cases l <;> first | exact absurd rfl hl | exact ⟨rfl, rfl⟩

/-- Witness for C2 (amended) at the claim's example: storing the
out-of-range resonance Q = 35 succeeds verbatim and leaves the volume leaf
(and, by the theorem, every other leaf) unchanged. -/
theorem updateParam_always_stores_witness :
    readLeaf (updateParam defaultParams (ParamField.filterQ 35))
        (ParamField.filterQ 35).leaf = (ParamField.filterQ 35).val ∧
    readLeaf (updateParam defaultParams (ParamField.filterQ 35)) Leaf.volume
      = readLeaf defaultParams Leaf.volume :=
  updateParam_always_stores defaultParams (ParamField.filterQ 35) Leaf.volume
    (by decide)

/-- Counterexample to C6 as stated: noteOn at time 0 under the defaults
(release 0.5), then a release-knob update to 3.0 while the note sounds,
then noteOff at time 1: the voice's snapshot says release 0.5, yet the
oscillator stop lands at 1 + 3 = 4, governed by the updated value — the
parameter change did alter the in-flight voice's release behavior. -/
theorem snapshot_release_counterexample :
    ((stopNote 1 (updateParamState (playNote 440 0 initialState)
        (ParamField.envRelease 3))).voices.map Voice.stopTime) = [some 4] ∧
    ((stopNote 1 (updateParamState (playNote 440 0 initialState)
        (ParamField.envRelease 3))).voices.map
          (fun v => v.snapshot.envelope.release)) = [1/2] := by
  constructor
  · norm_num [playNote, stopNote, updateParamState, updateParam, buildVoice,
      initialState, defaultParams]
  · norm_num [playNote, stopNote, updateParamState, updateParam, buildVoice,
      initialState, defaultParams]

/-- C6 (amended): a parameter change between noteOn and noteOff leaves the
voice list and refs completely untouched (no stored voice state changes),
and the sounding voice keeps behaving per its noteOn snapshot — EXCEPT
that the release ramp duration applied at noteOff is read from the
parameter set current at noteOff, not from the snapshot: after an update
`f`, stopping at time `t` schedules the ramp and the oscillator stop with
`(updateParam s.params f).envelope.release`. -/
theorem updateParam_not_retroactive_except_release (s : SynthState) (f : ParamField)
    (t : ℚ) (v : Voice) (rest : List Voice)
    (hheld : s.refsHeld = true) (hv : s.voices = v :: rest) :
    (updateParamState s f).voices = s.voices ∧
    (updateParamState s f).refsHeld = s.refsHeld ∧
    (stopNote t (updateParamState s f)).voices =
      { v with
          gainEvents := stopNoteEvents v.gainEvents t
            (updateParam s.params f).envelope.release,
          stopTime := some (t + (updateParam s.params f).envelope.release) } :: rest := by
  refine ⟨rfl, rfl, ?_⟩
  simp [stopNote, updateParamState, hheld, hv]

/-- Witness for C6 (amended) on the counterexample trace: noteOn at 0,
release updated to 3, noteOff at 1. -/
theorem updateParam_not_retroactive_except_release_witness :
    (updateParamState (playNote 440 0 initialState) (ParamField.envRelease 3)).voices
      = (playNote 440 0 initialState).voices ∧
    (updateParamState (playNote 440 0 initialState) (ParamField.envRelease 3)).refsHeld
      = (playNote 440 0 initialState).refsHeld ∧
    (stopNote 1 (updateParamState (playNote 440 0 initialState)
        (ParamField.envRelease 3))).voices =
      { buildVoice defaultParams 440 0 with
          gainEvents := stopNoteEvents (buildVoice defaultParams 440 0).gainEvents 1
            (updateParam (playNote 440 0 initialState).params
              (ParamField.envRelease 3)).envelope.release,
          stopTime := some (1 + (updateParam (playNote 440 0 initialState).params
              (ParamField.envRelease 3)).envelope.release) } :: [] :=
  updateParam_not_retroactive_except_release (playNote 440 0 initialState)
    (ParamField.envRelease 3) 1 (buildVoice defaultParams 440 0) [] (by rfl) (by rfl)

/-- C5: structural wiring of the voice graph — the distortion stage sits in
the filter-to-gain path exactly when `distortion > 0` (with the direct
filter-to-gain edge present exactly when it is not), the reverb send edges
exist exactly when `reverb > 0`, the delay send edges (gain to delay, delay
to delayGain, the delayGain-to-delay feedback, delayGain to master) exist
exactly when `delay > 0`; the dry path and the master-to-output edge are
always present.  Absent sends are absent edges, not zero-weighted ones. -/
theorem voice_wiring_structure (p : SynthParams) :
    ((Node.filterNode, Node.distortionNode) ∈ voiceEdges p ↔ 0 < p.effects.distortion) ∧
    ((Node.distortionNode, Node.gainNode) ∈ voiceEdges p ↔ 0 < p.effects.distortion) ∧
    ((Node.filterNode, Node.gainNode) ∈ voiceEdges p ↔ ¬ 0 < p.effects.distortion) ∧
    ((Node.gainNode, Node.reverbNode) ∈ voiceEdges p ↔ 0 < p.effects.reverb) ∧
    ((Node.reverbNode, Node.masterGain) ∈ voiceEdges p ↔ 0 < p.effects.reverb) ∧
    ((Node.gainNode, Node.delayNode) ∈ voiceEdges p ↔ 0 < p.effects.delay) ∧
    ((Node.delayNode, Node.delayGain) ∈ voiceEdges p ↔ 0 < p.effects.delay) ∧
    ((Node.delayGain, Node.delayNode) ∈ voiceEdges p ↔ 0 < p.effects.delay) ∧
    ((Node.delayGain, Node.masterGain) ∈ voiceEdges p ↔ 0 < p.effects.delay) ∧
    (Node.oscillator, Node.filterNode) ∈ voiceEdges p ∧
    (Node.gainNode, Node.masterGain) ∈ voiceEdges p ∧
    (Node.masterGain, Node.destination) ∈ voiceEdges p := by
  simp only [voiceEdges, gt_iff_lt]
  split_ifs with h1 h2 h3 <;> simp_all [List.mem_append, Prod.ext_iff]

/-- C7: for every distortionAmount `d` and sample index `i < 44100`, the
curve the voice builder computes, `createDistortionCurve (d * 100)`,
satisfies the spec formula
`(3+amountScaled)·x·20·(pi/180) / (pi + amountScaled·|x|)` with
`x = 2i/44100 - 1` and `amountScaled = d·100`. -/
theorem distortionCurve_matches_spec (d : ℝ) (i : ℕ) (_hi : i < 44100) :
    createDistortionCurve (d * 100) i = specDistortionCurve d i := by
  simp only [createDistortionCurve, specDistortionCurve]
  have hx : ((i : ℝ) * 2) / 44100 - 1 = 2 * (i : ℝ) / 44100 - 1 := by ring
  rw [hx]

/-- Witness for C7 at distortionAmount 1/2, sample index 0. -/
theorem distortionCurve_matches_spec_witness :
    createDistortionCurve ((1/2 : ℝ) * 100) 0 = specDistortionCurve (1/2) 0 :=
  distortionCurve_matches_spec (1/2) 0 (by norm_num)

/-- C8: the reverb impulse response built by `playNote`
(`createImpulseResponse(2, reverbAmount * 10)`) has 2 channels of
`sampleRate * 2` frames; sample `i` of channel `c` is the random draw
mapped to `rnd·2 - 1` times the envelope `(1 - i/length) ^ (reverbAmount*10)`;
and for `reverbAmount ≥ 0` the envelope factor decreases monotonically in
the frame index over `[0, length)`. -/
theorem impulseResponse_shape (rnd : ℕ → ℕ → ℝ) (sampleRate : ℕ)
    (reverbAmount : ℝ) (c i j : ℕ)
    (hr : 0 ≤ reverbAmount) (hij : i ≤ j) (hj : j < sampleRate * 2) :
    (createImpulseResponse rnd sampleRate 2 (reverbAmount * 10)).numChannels = 2 ∧
    (createImpulseResponse rnd sampleRate 2 (reverbAmount * 10)).length
      = sampleRate * 2 ∧
    (createImpulseResponse rnd sampleRate 2 (reverbAmount * 10)).data c i
      = (rnd c i * 2 - 1)
          * (1 - (i : ℝ) / ((sampleRate * 2 : ℕ) : ℝ)) ^ (reverbAmount * 10) ∧
    impulseEnvelope (sampleRate * 2) (reverbAmount * 10) j
      ≤ impulseEnvelope (sampleRate * 2) (reverbAmount * 10) i := by
  refine ⟨rfl, rfl, rfl, ?_⟩
  have hL : 0 < ((sampleRate * 2 : ℕ) : ℝ) := by
    have h0 : 0 < sampleRate * 2 := by omega
    exact_mod_cast h0
  have hbase_j : (0 : ℝ) ≤ 1 - (j : ℝ) / ((sampleRate * 2 : ℕ) : ℝ) := by
    have hj' : (j : ℝ) ≤ ((sampleRate * 2 : ℕ) : ℝ) := by
      exact_mod_cast Nat.le_of_lt hj
    have hone := (div_le_one hL).mpr hj'
    linarith
  have hbase_le : 1 - (j : ℝ) / ((sampleRate * 2 : ℕ) : ℝ)
      ≤ 1 - (i : ℝ) / ((sampleRate * 2 : ℕ) : ℝ) := by
    have hij' : (i : ℝ) / ((sampleRate * 2 : ℕ) : ℝ)
        ≤ (j : ℝ) / ((sampleRate * 2 : ℕ) : ℝ) := by
      have hcast : (i : ℝ) ≤ (j : ℝ) := by exact_mod_cast hij
      gcongr
    linarith
  have hexp : (0 : ℝ) ≤ reverbAmount * 10 := by linarith
  exact Real.rpow_le_rpow hbase_j hbase_le hexp

/-- Witness for C8 with the zero random oracle, sampleRate 2,
reverbAmount 1, channel 0, frames 0 and 1. -/
theorem impulseResponse_shape_witness :
    (createImpulseResponse (fun _ _ => 0) 2 2 ((1:ℝ) * 10)).numChannels = 2 ∧
    (createImpulseResponse (fun _ _ => 0) 2 2 ((1:ℝ) * 10)).length = 2 * 2 ∧
    (createImpulseResponse (fun _ _ => 0) 2 2 ((1:ℝ) * 10)).data 0 0
      = ((0:ℝ) * 2 - 1)
          * (1 - ((0:ℕ) : ℝ) / (((2 * 2 : ℕ)) : ℝ)) ^ ((1:ℝ) * 10) ∧
    impulseEnvelope (2 * 2) ((1:ℝ) * 10) 1 ≤ impulseEnvelope (2 * 2) ((1:ℝ) * 10) 0 :=
  impulseResponse_shape (fun _ _ => 0) 2 1 0 0 1 (by norm_num) (by norm_num)
    (by norm_num)

/-- Counterexample to C9 as stated: a delete issued with no authenticated
identity fails with the auth error ("Must be logged in"), which is a
distinct error kind from "Preset not found or unauthorized" — the claim's
single collapsed NotFoundOrUnauthorized error does not cover the
unauthenticated case in the code. -/
theorem delete_unauthenticated_error_counterexample :
    deletePreset none 1 [{ id := 1, userId := 7, name := "pad", params := defaultParams }]
      = Except.error PresetError.authRequired ∧
    PresetError.authRequired ≠ PresetError.notFoundOrUnauthorized :=
  ⟨rfl, by decide⟩

/-- C9 (amended): `deletePreset` succeeds exactly when the caller is
authenticated, the record exists, and its owner id equals the caller's;
the success result removes exactly that record.  Failures are: no
authenticated identity — the auth error; record absent, or owned by a
different user — the single collapsed not-found-or-unauthorized error.  A
thrown error aborts the mutation before `ctx.db.delete`, so on every
failure the table is left unchanged. -/
theorem deletePreset_owner_check (u other pid pid2 : ℕ) (db : List Preset)
    (preset : Preset) (hget : dbGet db pid = some preset)
    (hown : preset.userId = u) (hother : other ≠ u) (hmiss : dbGet db pid2 = none) :
    deletePreset none pid db = Except.error PresetError.authRequired ∧
    deletePreset (some u) pid2 db = Except.error PresetError.notFoundOrUnauthorized ∧
    deletePreset (some other) pid db = Except.error PresetError.notFoundOrUnauthorized ∧
    deletePreset (some u) pid db = Except.ok (db.filter (fun q => q.id ≠ pid)) := by
  refine ⟨rfl, ?_, ?_, ?_⟩
  · simp [deletePreset, hmiss]
  · simp [deletePreset, hget, hown, Ne.symm hother]
  · simp [deletePreset, hget, hown]

/-- Witness for C9 (amended): one record with id 1 owned by user 1; user 1
deleting id 2 and user 2 deleting id 1 both fail with the collapsed error,
the unauthenticated delete fails with the auth error, and user 1 deleting
id 1 succeeds and empties the table. -/
theorem deletePreset_owner_check_witness :
    deletePreset none 1 [{ id := 1, userId := 1, name := "pad", params := defaultParams }]
      = Except.error PresetError.authRequired ∧
    deletePreset (some 1) 2 [{ id := 1, userId := 1, name := "pad", params := defaultParams }]
      = Except.error PresetError.notFoundOrUnauthorized ∧
    deletePreset (some 2) 1 [{ id := 1, userId := 1, name := "pad", params := defaultParams }]
      = Except.error PresetError.notFoundOrUnauthorized ∧
    deletePreset (some 1) 1 [{ id := 1, userId := 1, name := "pad", params := defaultParams }]
      = Except.ok (List.filter (fun q => q.id ≠ 1)
          [{ id := 1, userId := 1, name := "pad", params := defaultParams }]) :=
  deletePreset_owner_check 1 2 1 2
    [{ id := 1, userId := 1, name := "pad", params := defaultParams }]
    { id := 1, userId := 1, name := "pad", params := defaultParams }
    rfl rfl (by decide) rfl

/-- C10: the value a Knob hands to `onChange` is the drag value clamped
into `[min, max]` and rounded to the nearest multiple of `step`
(`knobDragValue`); whenever `min` and `max` are integer multiples of a
positive `step` — as holds for every knob the Synthesizer instantiates,
see `synthKnobs_step_multiples` — every value the knob can ever emit lies
within `[min, max]`. -/
theorem knob_emit_in_range (minv maxv stepv startValue deltaY : ℚ) (a b : ℤ)
    (hstep : 0 < stepv) (hmin : minv = a * stepv) (hmax : maxv = b * stepv)
    (hle : minv ≤ maxv) :
    minv ≤ knobDragValue minv maxv stepv startValue deltaY ∧
    knobDragValue minv maxv stepv startValue deltaY ≤ maxv := by
  simp only [knobDragValue]
  set y := max minv (min maxv (startValue + deltaY * ((maxv - minv) / 200))) with hy
  have hy1 : minv ≤ y := le_max_left _ _
  have hy2 : y ≤ maxv := max_le hle (min_le_left _ _)
  have hdiv1 : (a : ℚ) ≤ y / stepv := by
    rw [le_div_iff hstep, ← hmin]
    exact hy1
  have hdiv2 : y / stepv ≤ (b : ℚ) := by
    rw [div_le_iff hstep, ← hmax]
    exact hy2
  have hr1 : a ≤ jsRound (y / stepv) := by
    simp only [jsRound]
    rw [Int.le_floor]
    linarith
  have hr2 : jsRound (y / stepv) ≤ b := by
    have hlt : jsRound (y / stepv) < b + 1 := by
      simp only [jsRound]
      rw [Int.floor_lt]
      push_cast
      linarith
    omega
  constructor
  · rw [hmin]
    have hcast : (a : ℚ) ≤ ((jsRound (y / stepv) : ℤ) : ℚ) := by exact_mod_cast hr1
    exact mul_le_mul_of_nonneg_right hcast hstep.le
  · rw [hmax]
    have hcast : ((jsRound (y / stepv) : ℤ) : ℚ) ≤ (b : ℚ) := by exact_mod_cast hr2
    exact mul_le_mul_of_nonneg_right hcast hstep.le

/-- Every Knob the Synthesizer instantiates has a positive step (all use
the default 0.01) and min and max that are integer multiples of that step
with min ≤ max — i.e. each satisfies the hypotheses of the knob range
theorem. -/
theorem synthKnobs_step_multiples :
    ∀ k ∈ synthKnobs, ∃ a b : ℤ,
      0 < k.2.2 ∧ k.1 = a * k.2.2 ∧ k.2.1 = b * k.2.2 ∧ k.1 ≤ k.2.1 := by
  intro k hk
  fin_cases hk
  · exact ⟨2000, 200000, by norm_num⟩
  · exact ⟨-10000, 10000, by norm_num⟩
  · exact ⟨2000, 2000000, by norm_num⟩
  · exact ⟨10, 3000, by norm_num⟩
  · exact ⟨1, 200, by norm_num⟩
  · exact ⟨1, 200, by norm_num⟩
  · exact ⟨0, 100, by norm_num⟩
  · exact ⟨1, 300, by norm_num⟩
  · exact ⟨0, 100, by norm_num⟩
  · exact ⟨0, 100, by norm_num⟩
  · exact ⟨0, 100, by norm_num⟩
  · exact ⟨0, 100, by norm_num⟩

/-- Witness for C10 on the Synthesizer's volume knob (min 0, max 1, step
0.01) with a large upward drag from 0.5: the emitted value stays in
[0, 1]. -/
theorem knob_emit_in_range_witness :
    (0:ℚ) ≤ knobDragValue 0 1 (1/100) (1/2) 1000 ∧
    knobDragValue 0 1 (1/100) (1/2) 1000 ≤ 1 :=
  knob_emit_in_range 0 1 (1/100) (1/2) 1000 0 100 (by norm_num) (by norm_num)
    (by norm_num) (by norm_num)
